import Mathlib

/-!
Verification of the client-side data-synchronization layer of the
warehouse-inventory front-end: the query-parameter builder shared by all
tables (`useGet`), the mutation cache-invalidation keys, the per-entity
validation functions, and the report component.  Each definition is a
shallow embedding of the corresponding TypeScript source.
-/

/-- Pagination state of a table (`MRT_PaginationState`). -/
structure MRTPagination where
  pageIndex : Nat
  pageSize : Nat
deriving DecidableEq

/-- One column filter entry of `MRT_ColumnFiltersState`: `\x7b id, value \x7d`. -/
structure MRTColumnFilter where
  id : String
  value : String
deriving DecidableEq

/-- One sorting rule of `MRT_SortingState`: `\x7b id, desc \x7d`. -/
structure MRTSortRule where
  id : String
  desc : Bool
deriving DecidableEq

/-- JSON encoding of a string literal (as produced by `JSON.stringify` on
strings that contain no characters needing escapes, which is the case for
the column ids used by the tables). -/
def jsonOfString (s : String) : String := "\"" ++ s ++ "\""

/-- JSON encoding of one column-filter object. -/
def jsonOfColumnFilter (f : MRTColumnFilter) : String :=
  "\x7b\"id\":" ++ jsonOfString f.id ++ ",\"value\":" ++ jsonOfString f.value ++ "\x7d"

/-- JSON encoding of one sorting-rule object. -/
def jsonOfSortRule (r : MRTSortRule) : String :=
  "\x7b\"id\":" ++ jsonOfString r.id ++ ",\"desc\":" ++
    (if r.desc then "true" else "false") ++ "\x7d"

/-- JSON array of already-encoded elements. -/
def jsonArray (elems : List String) : String :=
  "[" ++ String.intercalate "," elems ++ "]"

/-- `JSON.stringify` of a column-filter list. -/
def stringifyColumnFilters (fs : List MRTColumnFilter) : String :=
  jsonArray (fs.map jsonOfColumnFilter)

/-- `JSON.stringify` of a sorting list. -/
def stringifySorting (rs : List MRTSortRule) : String :=
  jsonArray (rs.map jsonOfSortRule)

/-- JS `String.prototype.trim`: strips leading and trailing whitespace. -/
def jsTrim (s : String) : String :=
  ⟨((s.data.dropWhile Char.isWhitespace).reverse.dropWhile Char.isWhitespace).reverse⟩

/-- The search-parameter list of a `URL` object, in order. -/
abbrev SearchParams := List (String × String)

/-- Remove every pair with the given key (used by `URLSearchParams.set`
to delete duplicate occurrences). -/
def deleteParam (ps : SearchParams) (key : String) : SearchParams :=
  ps.filter (fun p => !(p.1 == key))

/-- `URLSearchParams.set`: replaces the value at the first occurrence of the
key (removing any later duplicates), or appends the pair when absent. -/
def setParam : SearchParams → String → String → SearchParams
  | [], key, v => [(key, v)]
  | (k0, v0) :: rest, key, v =>
    if k0 == key then (key, v) :: deleteParam rest key
    else (k0, v0) :: setParam rest key v

/-- First value stored under a key (`URLSearchParams.get`). -/
def getParam : SearchParams → String → Option String
  | [], _ => none
  | (k0, v0) :: rest, key => if k0 == key then some v0 else getParam rest key

/-- The parameter-building part of `useGet`'s `queryFn`
(src/unnamed/part_003, lines 35-48): mutates the search parameters of the
URL object it is handed.  `start`, `size`, `filters` and `sorting` are
always set; `globalFilter` is set only when the filter text is truthy and
not whitespace-only, and is never deleted. -/
def useGetBuildParams (ps : SearchParams) (pagination : MRTPagination)
    (columnFilters : Option (List MRTColumnFilter)) (globalFilter : Option String)
    (sorting : Option (List MRTSortRule)) : SearchParams :=
  let ps := setParam ps "start" (toString (pagination.pageIndex * pagination.pageSize))
  let ps := setParam ps "size" (toString pagination.pageSize)
  let ps := setParam ps "filters" (stringifyColumnFilters (columnFilters.getD []))
  let ps :=
    match globalFilter with
    | some g => if jsTrim g == "" then ps else setParam ps "globalFilter" ("%" ++ g ++ "%")
    | none => ps
  setParam ps "sorting" (stringifySorting (sorting.getD []))

/-- The module-level products URL `new URL(API_URL, window.location.origin)`
(src/unnamed/part_002, line 24) is created with no query parameters. -/
def productsTableInitialParams : SearchParams := []

/-- One element of a react-query `queryKey` array, as used by this client:
a string tag, a number, a column-filter list, a sorting list, or a possibly
null string (the global filter). -/
inductive QueryKeyPart where
  | str : String → QueryKeyPart
  | num : Nat → QueryKeyPart
  | filterList : Option (List MRTColumnFilter) → QueryKeyPart
  | sortList : Option (List MRTSortRule) → QueryKeyPart
  | strOrNull : Option String → QueryKeyPart
deriving DecidableEq, BEq

/-- The `queryKey` under which `useGet` caches list data
(src/unnamed/part_003, lines 27-34):
`['table-data', columnFilters, globalFilter, pageIndex, pageSize, sorting]`. -/
def useGetQueryKey (columnFilters : Option (List MRTColumnFilter))
    (globalFilter : Option String) (pagination : MRTPagination)
    (sorting : Option (List MRTSortRule)) : List QueryKeyPart :=
  [QueryKeyPart.str "table-data",
   QueryKeyPart.filterList columnFilters,
   QueryKeyPart.strOrNull globalFilter,
   QueryKeyPart.num pagination.pageIndex,
   QueryKeyPart.num pagination.pageSize,
   QueryKeyPart.sortList sorting]

/-- The key passed to `invalidateQueries` by `useCreateProduct.onSuccess`
(src/unnamed/part_002, line 223): `['products']`. -/
def useCreateProductInvalidationKey : List QueryKeyPart := [QueryKeyPart.str "products"]

/-- The key passed to `invalidateQueries` by `useUpdateProduct.onSuccess`
(src/unnamed/part_002, line 244): `['products']`. -/
def useUpdateProductInvalidationKey : List QueryKeyPart := [QueryKeyPart.str "products"]

/-- The key passed to `invalidateQueries` by `useDeleteProduct.onSuccess`
(src/unnamed/part_002, line 263): `['products']`. -/
def useDeleteProductInvalidationKey : List QueryKeyPart := [QueryKeyPart.str "products"]

/-- Modelled from the spec: the shared query cache's invalidation operation
("invalidate every cached fetch result tagged with the entity's list key")
marks a cached entry stale when the invalidation key is an initial segment
of the entry's query key, which is react-query's partial key matching. -/
def invalidationMatches (filterKey cachedKey : List QueryKeyPart) : Bool :=
  List.isPrefixOf filterKey cachedKey

/-- Result of one `fetch` from the point of view of `useGet`'s `queryFn`:
either the promise rejects (network failure), or a response arrives with an
HTTP status and a body that may or may not parse as JSON of the expected
shape. -/
inductive FetchOutcome (T : Type) where
  | networkFailure : FetchOutcome T
  | response : Nat → Option T → FetchOutcome T

/-- `Response.ok`: status in the 2xx range. -/
def responseOk (status : Nat) : Bool := 200 ≤ status && status < 300

/-- `useGet`'s `queryFn` (src/unnamed/part_003, lines 35-53) after the URL
is built: awaits `fetch`, then `response.json()`.  It never reads
`response.ok` or the status, so the only failures are a rejected fetch and
a body that fails to parse as JSON. -/
def useGetQueryFnResult {T : Type} : FetchOutcome T → Except String T
  | FetchOutcome.networkFailure => Except.error "fetch failed"
  | FetchOutcome.response _ none => Except.error "response body is not JSON"
  | FetchOutcome.response _ (some t) => Except.ok t

/-- Observable state of one cached query: the data shown and the error
flag. -/
structure QueryState (T : Type) where
  data : Option T
  isError : Bool
deriving DecidableEq

/-- Modelled from the spec: how the scheduling layer (react-query, external
to this repository) folds a `queryFn` result into the query state — on
success the data is replaced and the error flag cleared, on failure
`isError` is set and the previous data is retained (the spec's
"previous data (if any) retained"). -/
def applyQueryOutcome {T : Type} (prev : QueryState T) (r : Except String T) :
    QueryState T :=
  match r with
  | Except.ok v => ⟨some v, false⟩
  | Except.error _ => ⟨prev.data, true⟩

/-- JS truthiness of an optional string field: `!x` holds for a missing
value and for the empty string. -/
def jsFalsyStr : Option String → Bool
  | none => true
  | some s => s == ""

/-- JS truthiness of an optional integer field: `!x` holds for a missing
value and for `0`. -/
def jsFalsyInt : Option Int → Bool
  | none => true
  | some n => n == 0

/-- JS truthiness of an optional numeric field carrying a monetary amount:
`!x` holds for a missing value and for `0`. -/
def jsFalsyRat : Option ℚ → Bool
  | none => true
  | some q => q == 0

/-- The row values handed to the product save handlers
(`Partial<Product>`): the editable fields, each possibly absent. -/
structure ProductDraft where
  product_name : Option String
  supplier : Option String
  item_number : Option String
deriving DecidableEq

/-- The record returned by `validateProduct` (src/unnamed/part_002, lines
268-274): one message per field, the empty string meaning "no error". -/
structure ProductValidationErrors where
  product_name : String
  supplier : String
  item_number : String
deriving DecidableEq

/-- `validateProduct` (src/unnamed/part_002, lines 268-274). -/
def validateProduct (product : ProductDraft) : ProductValidationErrors :=
  { product_name :=
      if jsFalsyStr product.product_name then "Наименование обязательно" else ""
  , supplier :=
      if jsFalsyStr product.supplier then "Поставщик обязателен" else ""
  , item_number :=
      if jsFalsyStr product.item_number then "Номенклатурный номер обязателен" else "" }

/-- `Object.values(newValidationErrors).some((error) => error)` for the
product error record: some field carries a non-empty (truthy) message. -/
def productErrorsSome (e : ProductValidationErrors) : Bool :=
  !(e.product_name == "") || !(e.supplier == "") || !(e.item_number == "")

/-- Outcome of a row-save handler: either validation blocked the save (the
handler stores the error record and returns before any network call), or
the create/update mutation was dispatched with the row values. -/
inductive SaveOutcome (V : Type) (E : Type) where
  | blocked : E → SaveOutcome V E
  | mutationDispatched : V → SaveOutcome V E
deriving DecidableEq

/-- `handleCreateProduct` (src/unnamed/part_002, lines 110-122): validate,
bail out on any truthy message, otherwise dispatch `createProduct`. -/
def handleCreateProduct (values : ProductDraft) :
    SaveOutcome ProductDraft ProductValidationErrors :=
  let newValidationErrors := validateProduct values
  if productErrorsSome newValidationErrors then
    SaveOutcome.blocked newValidationErrors
  else
    SaveOutcome.mutationDispatched values

/-- `handleSaveProduct` (src/unnamed/part_002, lines 124-136): same guard,
dispatching `updateProduct`. -/
def handleSaveProduct (values : ProductDraft) :
    SaveOutcome ProductDraft ProductValidationErrors :=
  let newValidationErrors := validateProduct values
  if productErrorsSome newValidationErrors then
    SaveOutcome.blocked newValidationErrors
  else
    SaveOutcome.mutationDispatched values

/-- The `required` flag of the supplier edit field's
`muiEditTextFieldProps` (src/unnamed/part_002, line 76). -/
def supplierEditFieldRequired : Bool := false

/-- The row values handed to the products-income save handlers
(`Partial<ProductsIncome>`). -/
structure ProductsIncomeDraft where
  income_note_id : Option Int
  warehouse_id : Option Int
  contractor : Option String
  total : Option ℚ
  date : Option String
deriving DecidableEq

/-- `Number.isInteger(total * 100)`: the amount is representable with two
decimal places.  Monetary amounts are embedded as rationals, so the
`isNaN` disjunct of the source check cannot fire. -/
def isTwoDecimalAmount (q : ℚ) : Bool := (q * 100).den == 1

/-- `validateProductsIncome` (src/src/components/TProductsIncome.tsx, lines
349-371): builds the `errors` record by conditional assignment, in source
order.  Note that the malformed-total branch assigns the EMPTY string as
the message (`errors.total = ''`). -/
def validateProductsIncome (productsIncome : ProductsIncomeDraft) :
    List (String × String) :=
  (if jsFalsyInt productsIncome.income_note_id then
    [("income_note_id", "Номер накладной обязателен")] else []) ++
  (if jsFalsyInt productsIncome.warehouse_id then
    [("warehouse_id", "Склад обязателен")] else []) ++
  (if jsFalsyStr productsIncome.contractor then
    [("contractor", "Контрагент обязателен")] else []) ++
  (if jsFalsyRat productsIncome.total then
    [("total", "Сумма обязательна")]
   else if isTwoDecimalAmount (productsIncome.total.getD 0) then []
   else [("total", "")]) ++
  (if jsFalsyStr productsIncome.date then
    [("date", "Дата обязательна")] else [])

/-- `Object.values(errors).some((error) => error)` for a keyed error list. -/
def errorListSome (errs : List (String × String)) : Bool :=
  errs.any (fun e => !(e.2 == ""))

/-- `handleCreateProductsIncome` (src/src/components/TProductsIncome.tsx,
lines 160-172): validate, bail out on any truthy message, otherwise
dispatch `createProductsIncome`. -/
def handleCreateProductsIncome (values : ProductsIncomeDraft) :
    SaveOutcome ProductsIncomeDraft (List (String × String)) :=
  let newValidationErrors := validateProductsIncome values
  if errorListSome newValidationErrors then
    SaveOutcome.blocked newValidationErrors
  else
    SaveOutcome.mutationDispatched values

/-- A products-income row whose `total` (`0.125`) is present but not a
two-decimal amount, with every other field filled in. -/
def malformedTotalIncomeRow : ProductsIncomeDraft :=
  { income_note_id := some 1
  , warehouse_id := some 1
  , contractor := some "OOO Rega"
  , total := some (mkRat 1 8)
  , date := some "2024-05-01" }

/-- Body of the parent products-outcome header POSTed by the compound
create (`Omit<ProductsOutcome, 'id'>`). -/
structure ProductsOutcomeBody where
  outcome_note_id : Int
  warehouse_id : Int
  contractor : String
  total : ℚ
  date : String
deriving DecidableEq

/-- Body of one outcome-note line item (`Omit<OutcomeNote, 'id'>`). -/
structure OutcomeNoteBody where
  item_number : String
  price : ℚ
  quantity : ℚ
  total : ℚ
  outcome_note_id : Int
deriving DecidableEq

/-- The entity the server returns from `POST /products_outcome`: the created
header row with its generated primary key `id`. -/
structure CreatedProductsOutcome where
  id : Int
  outcome_note_id : Int
deriving DecidableEq

/-- The argument of `createProductsOutcomeMutation.mutate`. -/
structure OutcomeMutationInput where
  productsOutcome : ProductsOutcomeBody
  outcomeNotes : List OutcomeNoteBody
deriving DecidableEq

/-- One network call issued by the compound create (a compensating delete
is included in the type so its absence can be stated). -/
inductive OutcomeApiCall where
  | postProductsOutcome : ProductsOutcomeBody → OutcomeApiCall
  | postOutcomeNotes : List OutcomeNoteBody → OutcomeApiCall
  | deleteProductsOutcome : Int → OutcomeApiCall
deriving DecidableEq

/-- `outcomeNotesWithId` (src/src/components/products-outcome-form.tsx,
lines 100-103): every line item is re-stamped with the CLIENT-entered
`data.productsOutcome.outcome_note_id`, not with anything taken from the
first response. -/
def outcomeNotesWithId (data : OutcomeMutationInput) : List OutcomeNoteBody :=
  data.outcomeNotes.map (fun note =>
    { note with outcome_note_id := data.productsOutcome.outcome_note_id })

/-- `createProductsOutcomeMutation.mutationFn`
(src/src/components/products-outcome-form.tsx, lines 91-113) as a function
of the two responses: POST the header; on failure throw; otherwise parse
the created header, POST all line items in one call, and throw when that
call fails.  Returns the calls issued in order and the mutation result. -/
def createProductsOutcomeMutationFn (data : OutcomeMutationInput)
    (response1 : Option CreatedProductsOutcome) (response2Ok : Bool) :
    List OutcomeApiCall × Except String CreatedProductsOutcome :=
  match response1 with
  | none =>
    ([OutcomeApiCall.postProductsOutcome data.productsOutcome],
     Except.error "Failed to create products outcome")
  | some createdProductsOutcome =>
    let calls := [OutcomeApiCall.postProductsOutcome data.productsOutcome,
                  OutcomeApiCall.postOutcomeNotes (outcomeNotesWithId data)]
    if response2Ok then (calls, Except.ok createdProductsOutcome)
    else (calls, Except.error "Failed to create outcome notes")

/-- No compensating delete of the header appears among the issued calls. -/
def noCompensatingDelete (calls : List OutcomeApiCall) : Bool :=
  calls.all (fun c =>
    match c with
    | OutcomeApiCall.deleteProductsOutcome _ => false
    | _ => true)

/-- A concrete compound-create input: client-entered note number 7 and one
line item. -/
def outcomeInputNote7 : OutcomeMutationInput :=
  { productsOutcome := ⟨7, 1, "K", 10, "2024-05-01"⟩
  , outcomeNotes := [⟨"A1", 10, 1, 10, 0⟩] }

/-- A concrete server response to the first POST: the created header's
generated id is 42, different from the client-entered note number 7. -/
def createdHeader42 : CreatedProductsOutcome := { id := 42, outcome_note_id := 7 }

/-- The kinds of report (src/unnamed/part_004, line 22). -/
inductive ReportType where
  | inventory | revenue | cost
deriving DecidableEq

/-- The sort-by keys (src/unnamed/part_004, line 29). -/
inductive ReportSortBy where
  | warehouse_id | item_number | product_name | total_remaining | total
deriving DecidableEq

/-- The group-by keys (src/unnamed/part_004, line 28). -/
inductive ReportGroupBy where
  | warehouse_id | item_number
deriving DecidableEq

/-- `ReportParams` (src/unnamed/part_004, lines 24-30). -/
structure ReportParamsRec where
  warehouseId : Option Int
  startDate : String
  endDate : String
  groupBy : ReportGroupBy
  sortBy : ReportSortBy
deriving DecidableEq

/-- One row of `ReportData` (src/unnamed/part_004, lines 32-38); monetary
and quantity values are embedded as rationals. -/
structure ReportDataRow where
  warehouse_id : Int
  item_number : String
  product_name : String
  total_remaining : Option ℚ
  total : Option ℚ
deriving DecidableEq

/-- The component state touched by `handleReportTypeChange`. -/
structure ReportComponentState where
  reportType : ReportType
  reportParams : ReportParamsRec
  reportData : List ReportDataRow
deriving DecidableEq

/-- `handleReportTypeChange` (src/unnamed/part_004, lines 84-94): set the
new report type, clear the fetched data, and swap an inapplicable `sortBy`
between `total` and `total_remaining`. -/
def handleReportTypeChange (s : ReportComponentState)
    (newReportType : ReportType) : ReportComponentState :=
  let s1 := { s with reportType := newReportType, reportData := [] }
  if newReportType = ReportType.inventory ∧ s.reportParams.sortBy = ReportSortBy.total then
    { s1 with reportParams := { s1.reportParams with sortBy := ReportSortBy.total_remaining } }
  else if ¬ newReportType = ReportType.inventory ∧
      s.reportParams.sortBy = ReportSortBy.total_remaining then
    { s1 with reportParams := { s1.reportParams with sortBy := ReportSortBy.total } }
  else s1

/-- Which sort-by options the sort-by select offers for a report type
(src/unnamed/part_004, lines 239-247): the three field keys always,
`total_remaining` only for inventory, `total` only for revenue/cost. -/
def sortByOptionAvailable (reportType : ReportType) : ReportSortBy → Bool
  | ReportSortBy.warehouse_id => true
  | ReportSortBy.item_number => true
  | ReportSortBy.product_name => true
  | ReportSortBy.total_remaining => reportType == ReportType.inventory
  | ReportSortBy.total => !(reportType == ReportType.inventory)

/-- `item.total || 0` coerced with `Number(...)`: a missing total counts as
`0`. -/
def jsNumOrZero : Option ℚ → ℚ
  | none => 0
  | some q => q

/-- `totalAmount` (src/unnamed/part_004, line 147):
`reportData.reduce((sum, item) => sum + Number(item.total || 0), 0)`. -/
def totalAmount (reportData : List ReportDataRow) : ℚ :=
  reportData.foldl (fun sum item => sum + jsNumOrZero item.total) 0

/-- Rounding to the nearest integer, halves away from zero toward plus
infinity on the scaled value: `⌊x + 1/2⌋` computed on the numerator and
denominator (models `toFixed` rounding; exact on two-decimal inputs). -/
def jsRoundCents (q : ℚ) : Int :=
  Int.fdiv (2 * q.num + q.den) (2 * q.den)

/-- `x.toFixed(2)`: the number rendered with exactly two digits after the
decimal point. -/
def toFixed2 (x : ℚ) : String :=
  let c := jsRoundCents (x * 100)
  let a := c.natAbs
  (if c < 0 then "-" else "") ++ toString (a / 100) ++ "." ++
    String.mk [Nat.digitChar (a / 10 % 10), Nat.digitChar (a % 10)]

/-- The grand-total text rendered under revenue/cost reports
(src/unnamed/part_004, line 270): `` `${totalAmount.toFixed(2)}₽` ``. -/
def grandTotalText (reportData : List ReportDataRow) : String :=
  toFixed2 (totalAmount reportData) ++ "₽"

/-- The grand-total line is rendered only for non-inventory reports
(src/unnamed/part_004, line 268). -/
def showsGrandTotal : ReportType → Bool
  | ReportType.inventory => false
  | ReportType.revenue => true
  | ReportType.cost => true

/-- Three revenue-report rows whose totals are 50, 49.5 and 50.5, summing
to exactly 150. -/
def threeRowRevenueReport : List ReportDataRow :=
  [ { warehouse_id := 1, item_number := "A1", product_name := "P1",
      total_remaining := none, total := some 50 }
  , { warehouse_id := 1, item_number := "A2", product_name := "P2",
      total_remaining := none, total := some (mkRat 99 2) }
  , { warehouse_id := 2, item_number := "A3", product_name := "P3",
      total_remaining := none, total := some (mkRat 101 2) } ]

/-- C1: for every pagination state, column-filter list, global-filter string
and sorting list, the request URL built by `useGet` (starting from the
parameter-less module URL) carries `start = pageIndex*pageSize`,
`size = pageSize`, `filters` = JSON of the column filters (or `[]` when
null), `sorting` = JSON of the sorting list (or `[]` when null), and
`globalFilter = "%" ++ text ++ "%"` exactly when the trimmed text is
non-empty. -/
theorem useGet_request_params_spec (pagination : MRTPagination)
    (columnFilters : Option (List MRTColumnFilter)) (globalFilter : Option String)
    (sorting : Option (List MRTSortRule)) :
    getParam (useGetBuildParams productsTableInitialParams pagination columnFilters
        globalFilter sorting) "start"
      = some (toString (pagination.pageIndex * pagination.pageSize)) ∧
    getParam (useGetBuildParams productsTableInitialParams pagination columnFilters
        globalFilter sorting) "size"
      = some (toString pagination.pageSize) ∧
    getParam (useGetBuildParams productsTableInitialParams pagination columnFilters
        globalFilter sorting) "filters"
      = some (stringifyColumnFilters (columnFilters.getD [])) ∧
    getParam (useGetBuildParams productsTableInitialParams pagination columnFilters
        globalFilter sorting) "sorting"
      = some (stringifySorting (sorting.getD [])) ∧
    getParam (useGetBuildParams productsTableInitialParams pagination columnFilters
        globalFilter sorting) "globalFilter"
      = (match globalFilter with
         | some g => if jsTrim g == "" then none else some ("%" ++ g ++ "%")
         | none => none) := by
  cases globalFilter with
  | none => exact ⟨rfl, rfl, rfl, rfl, rfl⟩
  | some g =>
    by_cases h : jsTrim g == ""
    · simp only [useGetBuildParams, productsTableInitialParams, h, if_true]
      exact ⟨rfl, rfl, rfl, rfl, rfl⟩
    · simp only [useGetBuildParams, productsTableInitialParams, h, if_false,
        Bool.false_eq_true]
      exact ⟨rfl, rfl, rfl, rfl, rfl⟩

/-- C2: the module-level URL object is reused across fetches and `useGet`
never deletes the `globalFilter` parameter; after a fetch with global
filter `"abc"`, a second fetch of the same table with an empty global
filter still carries `globalFilter = "%abc%"`. -/
theorem useGet_stale_globalFilter_persists :
    getParam
      (useGetBuildParams
        (useGetBuildParams productsTableInitialParams ⟨0, 10⟩ none (some "abc") none)
        ⟨1, 10⟩ none (some "") none)
      "globalFilter" = some "%abc%" := by
  decide

/-- C3: the key invalidated by the product mutations (`['products']`) never
matches the key under which `useGet` cached the list data
(`['table-data', ...]`), for any page, sort or filter state — so a
successful create, update or delete does not invalidate any cached list
fetch and observing tables are not forced to refetch. -/
theorem product_mutation_invalidation_misses_useGet_cache
    (columnFilters : Option (List MRTColumnFilter)) (globalFilter : Option String)
    (pagination : MRTPagination) (sorting : Option (List MRTSortRule)) :
    invalidationMatches useCreateProductInvalidationKey
      (useGetQueryKey columnFilters globalFilter pagination sorting) = false ∧
    invalidationMatches useUpdateProductInvalidationKey
      (useGetQueryKey columnFilters globalFilter pagination sorting) = false ∧
    invalidationMatches useDeleteProductInvalidationKey
      (useGetQueryKey columnFilters globalFilter pagination sorting) = false := by
  exact ⟨rfl, rfl, rfl⟩

/-- C4 counterexample: a non-2xx response (status 500) whose body parses as
JSON is treated by `useGet` as a success — `isError` is `false` (the claim
says it must be `true`) and the previous data is replaced by the response
body, because the `queryFn` never checks `response.ok`. -/
theorem useGet_non2xx_json_body_is_not_error :
    responseOk 500 = false ∧
    applyQueryOutcome (⟨some 1, false⟩ : QueryState Nat)
        (useGetQueryFnResult (FetchOutcome.response 500 (some 2)))
      = ⟨some 2, false⟩ := by
  exact ⟨rfl, rfl⟩

/-- C4 amended: a list fetch has `isError = true`, with the previously
fetched data retained, exactly when the fetch itself fails (network
failure) or the response body fails to parse as JSON; any response with a
JSON body — regardless of HTTP status — is treated as success and replaces
the data. -/
theorem useGet_error_flag_spec {T : Type} (prev : QueryState T) (status : Nat)
    (v : T) :
    applyQueryOutcome prev (useGetQueryFnResult (FetchOutcome.networkFailure (T := T)))
      = ⟨prev.data, true⟩ ∧
    applyQueryOutcome prev (useGetQueryFnResult (FetchOutcome.response status none))
      = ⟨prev.data, true⟩ ∧
    applyQueryOutcome prev (useGetQueryFnResult (FetchOutcome.response status (some v)))
      = ⟨some v, false⟩ := by
  exact ⟨rfl, rfl, rfl⟩

/-- C5: saving a product row whose `product_name` is empty (or absent) is
blocked: `validateProduct` yields a non-empty `product_name` message, and
both the create and the update save handlers return with the errors set,
before any mutation is dispatched. -/
theorem product_empty_name_blocks_save (values : ProductDraft)
    (h : jsFalsyStr values.product_name = true) :
    (validateProduct values).product_name = "Наименование обязательно" ∧
    handleCreateProduct values = SaveOutcome.blocked (validateProduct values) ∧
    handleSaveProduct values = SaveOutcome.blocked (validateProduct values) := by
  have h1 : (validateProduct values).product_name = "Наименование обязательно" := by
    simp [validateProduct, h]
  have h2 : productErrorsSome (validateProduct values) = true := by
    unfold productErrorsSome
    rw [h1]
    rfl
  exact ⟨h1, by simp [handleCreateProduct, h2], by simp [handleSaveProduct, h2]⟩

/-- C5 witness: the concrete row `\x7b product_name: "", supplier: "S",
item_number: "N" \x7d` is blocked with the required-name message. -/
theorem product_empty_name_blocks_save_witness :
    (validateProduct ⟨some "", some "S", some "N"⟩).product_name
      = "Наименование обязательно" ∧
    handleCreateProduct ⟨some "", some "S", some "N"⟩
      = SaveOutcome.blocked (validateProduct ⟨some "", some "S", some "N"⟩) ∧
    handleSaveProduct ⟨some "", some "S", some "N"⟩
      = SaveOutcome.blocked (validateProduct ⟨some "", some "S", some "N"⟩) :=
  product_empty_name_blocks_save ⟨some "", some "S", some "N"⟩ rfl

/-- C10: although the supplier edit field is rendered with
`required: false`, `validateProduct` demands a non-empty supplier, so every
save attempt with an empty (or absent) supplier is blocked with a non-empty
supplier message and neither the create nor the update mutation is
dispatched. -/
theorem product_empty_supplier_blocks_save (values : ProductDraft)
    (h : jsFalsyStr values.supplier = true) :
    supplierEditFieldRequired = false ∧
    (validateProduct values).supplier = "Поставщик обязателен" ∧
    handleCreateProduct values = SaveOutcome.blocked (validateProduct values) ∧
    handleSaveProduct values = SaveOutcome.blocked (validateProduct values) := by
  have h1 : (validateProduct values).supplier = "Поставщик обязателен" := by
    simp [validateProduct, h]
  have h2 : productErrorsSome (validateProduct values) = true := by
    unfold productErrorsSome
    rw [h1]
    have hs : (("Поставщик обязателен" : String) == "") = false := rfl
    rw [hs]
    simp
  exact ⟨rfl, h1, by simp [handleCreateProduct, h2], by simp [handleSaveProduct, h2]⟩

/-- C10 witness: the concrete row `\x7b product_name: "X", supplier: "",
item_number: "N" \x7d` is blocked with the required-supplier message. -/
theorem product_empty_supplier_blocks_save_witness :
    supplierEditFieldRequired = false ∧
    (validateProduct ⟨some "X", some "", some "N"⟩).supplier
      = "Поставщик обязателен" ∧
    handleCreateProduct ⟨some "X", some "", some "N"⟩
      = SaveOutcome.blocked (validateProduct ⟨some "X", some "", some "N"⟩) ∧
    handleSaveProduct ⟨some "X", some "", some "N"⟩
      = SaveOutcome.blocked (validateProduct ⟨some "X", some "", some "N"⟩) :=
  product_empty_supplier_blocks_save ⟨some "X", some "", some "N"⟩ rfl

/-- C6: for the concrete products-income row whose `total` is `0.125` —
present but not a two-decimal amount — `validateProductsIncome` assigns the
EMPTY string as the `total` message, so the save is NOT aborted and the
create mutation is dispatched, contradicting the claim that a non-empty
message is set and the save aborted. -/
theorem productsIncome_malformed_total_dispatches_mutation :
    isTwoDecimalAmount (mkRat 1 8) = false ∧
    validateProductsIncome malformedTotalIncomeRow = [("total", "")] ∧
    handleCreateProductsIncome malformedTotalIncomeRow
      = SaveOutcome.mutationDispatched malformedTotalIncomeRow := by
  have hmul : ((mkRat 1 8 : ℚ) * 100) = mkRat 25 2 := by
    rw [Rat.mkRat_eq_div, Rat.mkRat_eq_div]
    norm_num
  have hden : isTwoDecimalAmount (mkRat 1 8) = false := by
    unfold isTwoDecimalAmount
    rw [hmul]
    rfl
  have hfalsy : jsFalsyRat (some (mkRat 1 8)) = false := by
    simp [jsFalsyRat, beq_eq_false_iff_ne]
  have hval : validateProductsIncome malformedTotalIncomeRow = [("total", "")] := by
    simp [validateProductsIncome, malformedTotalIncomeRow, jsFalsyInt, jsFalsyStr,
      hfalsy, hden]
  refine ⟨hden, hval, ?_⟩
  simp [handleCreateProductsIncome, hval, errorListSome]

/-- C7 counterexample: with client-entered note number 7 and a first
response whose generated header id is 42, the line items POSTed by the
second call are stamped with 7, not with the generated id 42 — refuting
"POST the line-item records referencing that [generated] id" at this
concrete input. -/
theorem outcome_lineItems_ignore_generated_id :
    (createProductsOutcomeMutationFn outcomeInputNote7 (some createdHeader42) true).1
      = [OutcomeApiCall.postProductsOutcome outcomeInputNote7.productsOutcome,
         OutcomeApiCall.postOutcomeNotes [⟨"A1", 10, 1, 10, 7⟩]] ∧
    ((outcomeNotesWithId outcomeInputNote7).all
        (fun note => note.outcome_note_id == createdHeader42.id)) = false := by
  exact ⟨rfl, rfl⟩

/-- C7 amended: the compound outcome-note create issues exactly two
sequential network calls — first POST the parent header record, then POST
the line-item records stamped with the CLIENT-entered `outcome_note_id`
(the generated id returned by the first call is parsed but not used for the
line items) — and if the second call fails after the first succeeded, the
mutation errors out with no compensating delete of the created header. -/
theorem outcome_compound_create_spec (data : OutcomeMutationInput)
    (created : CreatedProductsOutcome) :
    createProductsOutcomeMutationFn data (some created) true
      = ([OutcomeApiCall.postProductsOutcome data.productsOutcome,
          OutcomeApiCall.postOutcomeNotes (outcomeNotesWithId data)],
         Except.ok created) ∧
    createProductsOutcomeMutationFn data (some created) false
      = ([OutcomeApiCall.postProductsOutcome data.productsOutcome,
          OutcomeApiCall.postOutcomeNotes (outcomeNotesWithId data)],
         Except.error "Failed to create outcome notes") ∧
    (createProductsOutcomeMutationFn data (some created) false).1.length = 2 ∧
    noCompensatingDelete
      (createProductsOutcomeMutationFn data (some created) false).1 = true ∧
    (outcomeNotesWithId data).all
      (fun note => note.outcome_note_id == data.productsOutcome.outcome_note_id)
      = true := by
  refine ⟨rfl, rfl, rfl, rfl, ?_⟩
  simp [outcomeNotesWithId, List.all_eq_true]

/-- The running sum of `totalAmount`'s `reduce`, for any initial value. -/
theorem totalAmount_foldl_eq (rows : List ReportDataRow) (init : ℚ) :
    rows.foldl (fun sum item => sum + jsNumOrZero item.total) init
      = init + (rows.map (fun item => jsNumOrZero item.total)).sum := by
  induction rows generalizing init with
  | nil => simp
  | cons r rs ih =>
    simp only [List.foldl_cons, List.map_cons, List.sum_cons, ih]
    ring

/-- C8: the grand total of a revenue/cost report equals the sum of the
`total` field over all returned rows (a missing total counting as 0); it is
rendered with exactly two digits after the decimal point followed by "₽";
the grand-total line is shown for revenue and cost reports; and the
concrete three-row report summing to 150 displays "150.00₽". -/
theorem report_grand_total_spec :
    (∀ rows : List ReportDataRow,
      totalAmount rows = (rows.map (fun item => jsNumOrZero item.total)).sum) ∧
    (∀ rows : List ReportDataRow, ∃ intPart fracPart : String,
      grandTotalText rows = intPart ++ "." ++ fracPart ++ "₽" ∧
      fracPart.length = 2) ∧
    showsGrandTotal ReportType.revenue = true ∧
    showsGrandTotal ReportType.cost = true ∧
    totalAmount threeRowRevenueReport = 150 ∧
    grandTotalText threeRowRevenueReport = "150.00₽" := by
  have hsum : ∀ rows : List ReportDataRow,
      totalAmount rows = (rows.map (fun item => jsNumOrZero item.total)).sum := by
    intro rows
    have h := totalAmount_foldl_eq rows 0
    simpa [totalAmount] using h
  have h150 : totalAmount threeRowRevenueReport = 150 := by
    rw [hsum]
    show jsNumOrZero (some 50) + (jsNumOrZero (some (mkRat 99 2)) +
      (jsNumOrZero (some (mkRat 101 2)) + 0)) = 150
    simp only [jsNumOrZero]
    rw [Rat.mkRat_eq_div, Rat.mkRat_eq_div]
    norm_num
  have hcents : jsRoundCents ((150 : ℚ) * 100) = 15000 := by
    have hc : (150 : ℚ) * 100 = 15000 := by norm_num
    rw [hc]
    rfl
  have hfix : toFixed2 150 = "150.00" := by
    unfold toFixed2
    rw [hcents]
    rfl
  refine ⟨hsum, ?_, rfl, rfl, h150, ?_⟩
  · intro rows
    refine ⟨(if jsRoundCents (totalAmount rows * 100) < 0 then "-" else "") ++
        toString ((jsRoundCents (totalAmount rows * 100)).natAbs / 100),
      String.mk [Nat.digitChar ((jsRoundCents (totalAmount rows * 100)).natAbs / 10 % 10),
        Nat.digitChar ((jsRoundCents (totalAmount rows * 100)).natAbs % 10)], ?_, rfl⟩
    simp [grandTotalText, toFixed2, String.append_assoc]
  · rw [grandTotalText, h150, hfix]
    rfl

/-- C9: every report-kind change clears the fetched report data, and the
resulting sort-by key is always one the sort-by select offers for the new
kind; in particular switching to inventory turns a `total` sort into
`total_remaining`, and switching to revenue or cost turns a
`total_remaining` sort into `total`. -/
theorem handleReportTypeChange_spec (s : ReportComponentState) (t : ReportType) :
    (handleReportTypeChange s t).reportData = [] ∧
    (handleReportTypeChange s t).reportType = t ∧
    sortByOptionAvailable t (handleReportTypeChange s t).reportParams.sortBy = true ∧
    (handleReportTypeChange
        { s with reportParams := { s.reportParams with sortBy := ReportSortBy.total } }
        ReportType.inventory).reportParams.sortBy = ReportSortBy.total_remaining ∧
    (handleReportTypeChange
        { s with reportParams :=
            { s.reportParams with sortBy := ReportSortBy.total_remaining } }
        ReportType.revenue).reportParams.sortBy = ReportSortBy.total ∧
    (handleReportTypeChange
        { s with reportParams :=
            { s.reportParams with sortBy := ReportSortBy.total_remaining } }
        ReportType.cost).reportParams.sortBy = ReportSortBy.total := by
  obtain ⟨rt, ⟨w, sd, ed, gb, sb⟩, rd⟩ := s
  cases t <;> cases sb <;>
    simp [handleReportTypeChange, sortByOptionAvailable]
